import Mathlib

set_option maxRecDepth 100000

/-
Verification of the cratedocs documentation-resolution core
(`src/tools/cargo_docs/mod.rs`) against its specification.

The Rust code is shallowly embedded:
* strings are modelled as `String` / `List Char` (the code only handles
  ASCII-significant patterns, so per-character operations coincide with
  Rust byte-index operations on the inputs of interest);
* the HTTP transport is a function from URL to an outcome exposing exactly
  the observables the code consumes: a transport error message, the
  `is_success` bit of the status, the `Display` rendering of the status,
  and the body read (`response.text()`), which may itself fail;
* the HTML-to-markdown converter `parse_html` (an out-of-scope external
  collaborator) is a function parameter `ph`;
* the concurrent `DocCache` is modelled as an association list with
  shadowing insert, which realises the same `get`/`set` observable
  behaviour as the `HashMap` under a mutex in a single call;
* each operation returns its text payload, the cache state after the
  call, and the ordered list of URLs it fetched.
-/

namespace Cratedocs

/-- Character-list view of strings, mirroring Rust `&str` scanning. -/
abbrev Chars := List Char

/-- Rust `str::to_lowercase` (ASCII-relevant part). -/
def lowerL (s : Chars) : Chars := s.map Char.toLower

/-- Rust `str::trim`. -/
def trimL (s : Chars) : Chars :=
  ((s.dropWhile Char.isWhitespace).reverse.dropWhile Char.isWhitespace).reverse

/-- Rust `str::trim_end`. -/
def trimEndL (s : Chars) : Chars :=
  (s.reverse.dropWhile Char.isWhitespace).reverse

/-- Rust `str::starts_with` (string pattern). -/
def startsW (s pat : Chars) : Bool := pat.isPrefixOf s

/-- Rust `str::contains` (substring containment), needle first. -/
def containsSub (pat : Chars) : Chars → Bool
  | [] => pat.isEmpty
  | c :: rest => pat.isPrefixOf (c :: rest) || containsSub pat rest

/-- Rust `str::find` with a string pattern: index of first occurrence. -/
def findSub (pat : Chars) : Chars → Option Nat
  | [] => if pat.isEmpty then some 0 else none
  | c :: rest =>
    if pat.isPrefixOf (c :: rest) then some 0
    else (findSub pat rest).map (· + 1)

/-- Rust `str::trim_end_matches` with a `char` pattern. -/
def dropEndAllC (c : Char) (s : Chars) : Chars :=
  (s.reverse.dropWhile (· == c)).reverse

/-- Rust `str::trim_start_matches` with a `char` pattern. -/
def dropStartAllC (c : Char) (s : Chars) : Chars :=
  s.dropWhile (· == c)

/-- Fuel-indexed worker for `dropStartAllS`; the fuel only serves
structural termination and `s.length` of fuel is always enough, since
each round removes a nonempty pattern from the front. -/
def dropStartAllSFuel (pat : Chars) : Nat → Chars → Chars
  | 0, s => s
  | fuel + 1, s =>
    if !pat.isEmpty && pat.isPrefixOf s then
      dropStartAllSFuel pat fuel (s.drop pat.length)
    else s

/-- Rust `str::trim_start_matches` with a string pattern: repeatedly
remove the pattern from the front. -/
def dropStartAllS (pat : Chars) (s : Chars) : Chars :=
  dropStartAllSFuel pat s.length s

/-- Rust `str::trim_end_matches` with a string pattern. -/
def dropEndAllS (pat : Chars) (s : Chars) : Chars :=
  (dropStartAllS pat.reverse s.reverse).reverse

/-- Rust `str::split("::")`: split on a double-colon separator.  Never
returns the empty list (Rust `split` always yields at least one piece). -/
def splitCCAux : Chars → Chars → List Chars
  | acc, [] => [acc.reverse]
  | acc, ':' :: ':' :: rest => acc.reverse :: splitCCAux [] rest
  | acc, c :: rest => splitCCAux (c :: acc) rest

/-- Rust `item_path.split("::")`. -/
def splitCC (s : Chars) : List Chars := splitCCAux [] s

/-- Rust `str::split(c)` for a single-char separator. -/
def splitChAux (sep : Char) : Chars → Chars → List Chars
  | acc, [] => [acc.reverse]
  | acc, c :: rest =>
    if c = sep then acc.reverse :: splitChAux sep [] rest
    else splitChAux sep (c :: acc) rest

/-- Rust `str::split(c)`. -/
def splitCh (sep : Char) (s : Chars) : List Chars := splitChAux sep [] s

/-- Strip one trailing carriage return, as Rust `str::lines` does. -/
def stripCr (l : Chars) : Chars :=
  if l.getLast? = some '\r' then l.dropLast else l

/-- Rust `str::lines`: split on newline, drop the phantom final empty
piece produced by a trailing newline, strip a trailing `\r` per line. -/
def rlines (s : Chars) : List Chars :=
  if s.isEmpty then []
  else
    let ps := splitCh '\n' s
    let ps := if s.getLast? = some '\n' then ps.dropLast else ps
    ps.map stripCr

/-- `vec.push` guarded by `vec.contains` as in the Rust extraction loops:
append preserving first-seen order, dropping duplicates. -/
def pushUnique (l : List Chars) (x : Chars) : List Chars :=
  if l.contains x then l else l ++ [x]

/-! ## Cache and transport model -/

/-- The documentation cache: key/value pairs of strings.  A shadowing
prepend-insert together with first-match lookup gives the observable
`HashMap::insert` / `get` behaviour of `DocCache`. -/
abbrev Cache := List (String × String)

/-- `DocCache::get`. -/
def cacheGet (c : Cache) (k : String) : Option String :=
  (c.find? (fun p => p.1 == k)).map (·.2)

/-- `DocCache::set`. -/
def cacheSet (c : Cache) (k v : String) : Cache := (k, v) :: c

instance : DecidableEq (Except String String)
  | .error a, .error b => decidable_of_iff (a = b) (by simp)
  | .error _, .ok _ => isFalse (by simp)
  | .ok _, .error _ => isFalse (by simp)
  | .ok a, .ok b => decidable_of_iff (a = b) (by simp)

/-- The observables of an HTTP response the code consumes:
`status().is_success()`, the `Display` of `status()`, and the result of
`response.text()` (which can fail). -/
structure HttpResponse where
  success : Bool
  statusText : String
  body : Except String String
deriving DecidableEq

/-- Outcome of a `client.get(url).send()` roundtrip. -/
inductive FetchOutcome where
  | transportError (msg : String)
  | ok (resp : HttpResponse)
deriving DecidableEq

/-- The HTTP transport capability: URL to outcome. -/
abbrev Fetch := String → FetchOutcome

/-- Result of one core operation: the returned text payload, the cache
state after the call, and the URLs fetched, in order. -/
structure CallOut where
  payload : String
  cache : Cache
  fetched : List String
deriving DecidableEq

/-! ## `lookup_crate` -/

/-- The docs.rs URL for a whole-package lookup (lines 110-114). -/
def crateUrl (crate_name : String) (version : Option String) : String :=
  match version with
  | some ver => "https://docs.rs/crate/" ++ crate_name ++ "/" ++ ver ++ "/"
  | none => "https://docs.rs/crate/" ++ crate_name ++ "/"

/-- Cache key of `lookup_crate` (lines 99-103). -/
def crateKey (crate_name : String) (version : Option String) : String :=
  match version with
  | some ver => crate_name ++ ":" ++ ver
  | none => crate_name

/-- `CargoDocRouter::lookup_crate`, lines 88-150 of
`src/tools/cargo_docs/mod.rs`. -/
def lookup_crate (ph : String → String) (fetch : Fetch) (cache : Cache)
    (crate_name : String) (version : Option String) : CallOut :=
  let cache_key := crateKey crate_name version
  match cacheGet cache cache_key with
  | some doc => ⟨doc, cache, []⟩
  | none =>
    let url := crateUrl crate_name version
    match fetch url with
    | .transportError e => ⟨"Failed to fetch documentation: " ++ e, cache, [url]⟩
    | .ok resp =>
      if !resp.success then
        ⟨"Failed to fetch documentation. Status: " ++ resp.statusText, cache, [url]⟩
      else
        match resp.body with
        | .error e => ⟨"Failed to read response body: " ++ e, cache, [url]⟩
        | .ok html =>
          let markdown_body := ph html
          ⟨markdown_body, cacheSet cache cache_key markdown_body, [url]⟩

/-! ## `search_crates` -/

/-- The effective result count: `limit.unwrap_or(10).min(100)`
(line 187 of `src/tools/cargo_docs/mod.rs`). -/
def effLimit (limit : Option Nat) : Nat := min (limit.getD 10) 100

/-- The registry search URL (lines 189-192). -/
def searchUrl (query : String) (limit : Nat) : String :=
  "https://crates.io/api/v1/crates?q=" ++ query ++ "&per_page=" ++ toString limit

/-- `CargoDocRouter::search_crates`, lines 175-225.  No cache involved;
the result is the payload plus the fetched URL. -/
def search_crates (ph : String → String) (fetch : Fetch)
    (query : String) (limit : Option Nat) : String × List String :=
  let l := effLimit limit
  let url := searchUrl query l
  match fetch url with
  | .transportError e => ("Failed to search crates.io: " ++ e, [url])
  | .ok resp =>
    if !resp.success then
      ("Failed to search crates.io. Status: " ++ resp.statusText, [url])
    else
      match resp.body with
      | .error e => ("Failed to read response body: " ++ e, [url])
      | .ok body =>
        if startsW (trimL body.data) "\x7b".data then (body, [url])
        else (ph body, [url])

/-! ## `lookup_item` -/

/-- The candidate item kinds, in the order tried (line 802). -/
def itemTypes : List String := ["struct", "enum", "trait", "fn", "macro"]

/-- The docs.rs URL for one candidate kind (lines 806-829): four format
branches on (version supplied?, module path empty?). -/
def itemUrl (crate_name : String) (version : Option String)
    (module_path item_name item_type : String) : String :=
  match version with
  | some ver =>
    if module_path = "" then
      "https://docs.rs/" ++ crate_name ++ "/" ++ ver ++ "/" ++ crate_name ++
        "/" ++ item_type ++ "." ++ item_name ++ ".html"
    else
      "https://docs.rs/" ++ crate_name ++ "/" ++ ver ++ "/" ++ crate_name ++
        "/" ++ module_path ++ "/" ++ item_type ++ "." ++ item_name ++ ".html"
  | none =>
    if module_path = "" then
      "https://docs.rs/" ++ crate_name ++ "/latest/" ++ crate_name ++
        "/" ++ item_type ++ "." ++ item_name ++ ".html"
    else
      "https://docs.rs/" ++ crate_name ++ "/latest/" ++ crate_name ++
        "/" ++ module_path ++ "/" ++ item_type ++ "." ++ item_name ++ ".html"

/-- The kind-trial loop of `lookup_item` (lines 805-872): iterate over the
candidate kinds, short-circuit on the first 2xx response, accumulate the
last failure.  On a 2xx response whose body read fails the code returns
immediately without caching. -/
def tryTypes (ph : String → String) (fetch : Fetch) (cache : Cache)
    (cache_key crate_name : String) (version : Option String)
    (module_path item_name : String) :
    List String → Option String → CallOut
  | [], last_error =>
    ⟨"Failed to fetch item documentation. No matching item found. Last error: " ++
      last_error.getD "Unknown error", cache, []⟩
  | t :: rest, last_error =>
    let url := itemUrl crate_name version module_path item_name t
    match fetch url with
    | .transportError e =>
      let r := tryTypes ph fetch cache cache_key crate_name version
        module_path item_name rest (some e)
      ⟨r.payload, r.cache, url :: r.fetched⟩
    | .ok resp =>
      if resp.success then
        match resp.body with
        | .error e => ⟨"Failed to read response body: " ++ e, cache, [url]⟩
        | .ok html =>
          let markdown_body := ph html
          ⟨markdown_body, cacheSet cache cache_key markdown_body, [url]⟩
      else
        let r := tryTypes ph fetch cache cache_key crate_name version
          module_path item_name rest (some ("Status code: " ++ resp.statusText))
        ⟨r.payload, r.cache, url :: r.fetched⟩

/-- The normalisation step of `lookup_item` (lines 768-772): strip a
leading `"<crate_name>::"` from the item path. -/
def stripCratePre (crate_name item_path : String) : String :=
  let cp := crate_name ++ "::"
  if startsW item_path.data cp.data then
    String.mk (item_path.data.drop cp.data.length)
  else item_path

/-- Cache key for an item lookup (lines 775-779), computed from the
already-normalised item path. -/
def itemKey (crate_name item_path : String) (version : Option String) : String :=
  match version with
  | some ver => crate_name ++ ":" ++ ver ++ ":" ++ item_path
  | none => crate_name ++ ":" ++ item_path

/-- Module path for a split item path (lines 795-799). -/
def modulePathOf (parts : List Chars) : String :=
  if parts.length > 1 then
    String.intercalate "/" (parts.dropLast.map String.mk)
  else ""

/-- `CargoDocRouter::lookup_item` after prefix normalisation
(lines 774-872). -/
def lookup_item_norm (ph : String → String) (fetch : Fetch) (cache : Cache)
    (crate_name item_path : String) (version : Option String) : CallOut :=
  let cache_key := itemKey crate_name item_path version
  match cacheGet cache cache_key with
  | some doc => ⟨doc, cache, []⟩
  | none =>
    let parts := splitCC item_path.data
    if parts.isEmpty then
      ⟨"Invalid item path. Expected format: module::path::ItemName", cache, []⟩
    else
      let item_name := String.mk (parts.getLastD [])
      let module_path := modulePathOf parts
      tryTypes ph fetch cache cache_key crate_name version
        module_path item_name itemTypes none

/-- `CargoDocRouter::lookup_item`, lines 762-873. -/
def lookup_item (ph : String → String) (fetch : Fetch) (cache : Cache)
    (crate_name item_path : String) (version : Option String) : CallOut :=
  lookup_item_norm ph fetch cache crate_name
    (stripCratePre crate_name item_path) version

/-! ## `lookup_item_examples` -/

/-- Loop state of the stage-1 "Examples"-section scan (lines 264-266):
`in_examples`, `code_block`, `current_example`, `examples_content`. -/
structure S1 where
  in_examples : Bool
  code_block : Bool
  current : Chars
  out : Chars

/-- One iteration of the stage-1 loop (lines 268-304). -/
def s1step (st : S1) (line : Chars) : S1 :=
  let tl := lowerL (trimL line)
  if tl == "## examples".data || tl == "# examples".data then
    { st with in_examples := true, out := st.out ++ "# Usage Examples\n\n".data }
  else if st.in_examples && startsW line "#".data && !containsSub "example".data tl then
    st
  else if st.in_examples then
    let st1 :=
      if startsW (trimL line) "```".data then
        let cb := !st.code_block
        if cb && !st.current.isEmpty then
          { st with code_block := cb,
                    out := st.out ++ "\n**Example usage:**\n\n".data,
                    current := [] }
        else { st with code_block := cb }
      else st
    let st2 := { st1 with out := st1.out ++ line ++ "\n".data }
    if !st2.code_block && !(trimL line).isEmpty then
      { st2 with current := st2.current ++ line ++ " ".data }
    else st2
  else st

/-- Stage-1 scan over the whole document. -/
def stage1 (doc_lines : List Chars) : Chars :=
  (doc_lines.foldl s1step ⟨false, false, [], []⟩).out

/-- Loop state of the stage-2 whole-document code-block scan
(lines 311-312). -/
structure S2 where
  in_code : Bool
  count : Nat
  out : Chars

/-- One iteration of the stage-2 loop (lines 315-330). -/
def s2step (st : S2) (line : Chars) : S2 :=
  if startsW (trimL line) "```".data then
    let ic := !st.in_code
    let st := { st with in_code := ic }
    let st :=
      if ic then
        { st with count := st.count + 1,
                  out := st.out ++ "## Example ".data ++
                    (toString (st.count + 1)).data ++ "\n\n".data }
      else st
    { st with out := st.out ++ line ++ "\n".data }
  else if st.in_code then
    { st with out := st.out ++ line ++ "\n".data }
  else st

/-- Stage-2 scan over the whole document (lines 307-331), including its
fixed header and preamble. -/
def stage2 (doc_lines : List Chars) : Chars :=
  (doc_lines.foldl s2step
    ⟨false, 0,
      "# Usage Examples\n\nThe following examples demonstrate how to use this item:\n\n".data⟩).out

/-- The kinds the best-effort inference can produce. -/
inductive InferredKind where
  | kStruct
  | kTrait
  | kEnum
  | kFn
  | kOther
deriving DecidableEq

/-- The Example Extractor\x27s kind inference (lines 342-345 together with
the branch order of lines 349-399): case-insensitive co-occurrence of the
kind keyword and the bare item name in the document, priority order
struct, trait, enum, fn, generic default. -/
def exInferKind (doc_content item_name : String) : InferredKind :=
  let dl := lowerL doc_content.data
  let inl := lowerL item_name.data
  if containsSub "struct".data dl && containsSub inl dl then .kStruct
  else if containsSub "trait".data dl && containsSub inl dl then .kTrait
  else if containsSub "enum".data dl && containsSub inl dl then .kEnum
  else if containsSub "fn".data dl && containsSub inl dl then .kFn
  else .kOther

/-- Stage-3 synthetic example generation (lines 337-400). -/
def synthExamples (crate_name item_path doc_content : String) : String :=
  let parts := splitCC item_path.data
  let item_name := String.mk (parts.getLastD [])
  "# Usage Examples\n\n" ++
  match exInferKind doc_content item_name with
  | .kStruct =>
    "## Creating and using a " ++ item_name ++ " instance\n\n" ++
    "```rust\n" ++
    "use " ++ crate_name ++ "::" ++ item_path ++ ";\n\n" ++
    "// Create a new " ++ item_name ++ " instance\n" ++
    "let instance = " ++ item_name ++ "::new();\n\n" ++
    "// Use methods on the " ++ item_name ++ " instance\n" ++
    "// instance.some_method();\n" ++
    "```\n\n" ++
    "This is a generated example. Check the actual documentation for the correct method names and usage patterns.\n"
  | .kTrait =>
    "## Implementing the " ++ item_name ++ " trait\n\n" ++
    "```rust\n" ++
    "use " ++ crate_name ++ "::" ++ item_path ++ ";\n\n" ++
    "struct MyType;\n\n" ++
    "impl " ++ item_name ++ " for MyType \x7b\n" ++
    "    // Implement the required trait methods here\n" ++
    "\x7d\n" ++
    "```\n\n" ++
    "This is a generated example. Check the actual documentation for the required trait methods.\n"
  | .kEnum =>
    "## Using the " ++ item_name ++ " enum\n\n" ++
    "```rust\n" ++
    "use " ++ crate_name ++ "::" ++ item_path ++ ";\n\n" ++
    "// Match on " ++ item_name ++ " variants\n" ++
    "let value = " ++ item_name ++ "::Variant;\n\n" ++
    "match value \x7b\n" ++
    "    " ++ item_name ++ "::Variant => \x7b\x7d,\n" ++
    "    // Match other variants...\n" ++
    "\x7d\n" ++
    "```\n\n" ++
    "This is a generated example. Check the actual documentation for the correct enum variants.\n"
  | .kFn =>
    "## Calling the " ++ item_name ++ " function\n\n" ++
    "```rust\n" ++
    "use " ++ crate_name ++ "::" ++ item_path ++ ";\n\n" ++
    "// Call the function\n" ++
    "let result = " ++ item_name ++ "();\n" ++
    "```\n\n" ++
    "This is a generated example. Check the actual documentation for the correct function parameters.\n"
  | .kOther =>
    "## Generic Example\n\n" ++
    "```rust\n" ++
    "// Example for using " ++ item_path ++ "\n" ++
    "use " ++ crate_name ++ "::" ++ item_path ++ ";\n\n" ++
    "// Add your usage code here\n" ++
    "```\n\n" ++
    "No specific examples were found in the documentation.\n" ++
    "Please refer to the main documentation for usage information.\n"

/-- The pure extraction pipeline of `lookup_item_examples`
(lines 258-400): stage 1, stage 2 if stage 1 produced nothing, stage 3 if
the result so far has no fenced content. -/
def extractExamples (crate_name item_path doc_content : String) : String :=
  let doc_lines := rlines doc_content.data
  let e1 := stage1 doc_lines
  let e := if e1.isEmpty then stage2 doc_lines else e1
  if trimL e == "# Usage Examples\n\nThe following examples demonstrate how to use this item:".data
      || trimL e == "# Usage Examples".data
      || !containsSub "```".data e then
    synthExamples crate_name item_path doc_content
  else String.mk e

/-- Cache key of `lookup_item_examples` (lines 245-249). -/
def examplesKey (crate_name item_path : String) (version : Option String) : String :=
  match version with
  | some ver => "examples:" ++ crate_name ++ ":" ++ ver ++ ":" ++ item_path
  | none => "examples:" ++ crate_name ++ ":" ++ item_path

/-- `CargoDocRouter::lookup_item_examples`, lines 228-406: probe the
examples namespace, resolve the document via `lookup_item`, extract, and
cache the extraction result unconditionally. -/
def lookup_item_examples (ph : String → String) (fetch : Fetch) (cache : Cache)
    (crate_name item_path : String) (version : Option String) : CallOut :=
  let cache_key := examplesKey crate_name item_path version
  match cacheGet cache cache_key with
  | some ex => ⟨ex, cache, []⟩
  | none =>
    let r := lookup_item ph fetch cache crate_name item_path version
    let examples_content := extractExamples crate_name item_path r.payload
    ⟨examples_content, cacheSet r.cache cache_key examples_content, r.fetched⟩

/-! ## `analyze_type_relationships` -/

/-- Return-type extraction for one line (lines 465-475): lines with a
`"fn "` marker and an `"->"` arrow; substring after the first arrow,
trailing punctuation trimmed; dropped if empty or containing `"Self"`. -/
def retOfLine (line : Chars) : Option Chars :=
  if containsSub "fn ".data line && containsSub "->".data line then
    match findSub "->".data line with
    | some pos =>
      let return_type :=
        dropEndAllC ',' (trimEndL (dropEndAllC ';' (dropEndAllC '\x7b'
          (trimL (line.drop (pos + 2))))))
      if !return_type.isEmpty && !containsSub "Self".data return_type then
        some return_type
      else none
    | none => none
  else none

/-- Parameter-type candidates for one line (lines 477-495): the
parenthesised list split on commas; for each piece with a colon, the piece
after the first colon, trimmed; dropped if empty or containing `"Self"`. -/
def paramsOfLine (line : Chars) : List Chars :=
  if containsSub "fn ".data line && containsSub "->".data line then
    match List.findIdx? (fun c => c == '(') line with
    | some ps =>
      match List.findIdx? (fun c => c == ')') (line.drop ps) with
      | some pe =>
        let params := trimL ((line.drop (ps + 1)).take (pe - 1))
        (splitCh ',' params).foldl (fun acc param =>
          if param.contains ':' then
            let param_type := trimL ((splitCh ':' param).getD 1 [])
            if !param_type.isEmpty && !containsSub "Self".data param_type then
              acc ++ [param_type]
            else acc
          else acc) []
      | none => []
    | none => []
  else []

/-- Associated-type extraction for one line (lines 499-514). -/
def assocOfLine (line : Chars) : Option Chars :=
  if containsSub "type ".data line && line.contains ';' then
    match findSub "type ".data line with
    | some pos =>
      let rest := line.drop (pos + 5)
      match List.findIdx? (fun c => c == ':') rest with
      | some ne => some (trimL (rest.take ne))
      | none =>
        match List.findIdx? (fun c => c == '=') rest with
        | some ne => some (trimL (rest.take ne))
        | none =>
          match List.findIdx? (fun c => c == ';') rest with
          | some ne => some (trimL (rest.take ne))
          | none => none
    | none => none
  else none

/-- Implemented-trait extraction for one line (lines 517-533). -/
def implOfLine (line : Chars) : Option Chars :=
  if containsSub "impl".data line && containsSub "for".data line then
    match findSub "impl".data line, findSub "for".data line with
    | some t_pos, some f_pos =>
      if t_pos + 4 < f_pos && t_pos + 4 < line.length && f_pos ≤ line.length then
        let trait_name := dropEndAllC '>' (dropStartAllC '<'
          (trimL ((line.drop (t_pos + 4)).take (f_pos - (t_pos + 4)))))
        if !trait_name.isEmpty then some trait_name else none
      else none
    | _, _ => none
  else none

/-- The Relationship Analyzer\x27s kind inference (lines 450-460):
case-sensitive co-occurrence of the kind keyword and the full item path,
priority order struct, enum, trait, fn, default `"item"`. -/
def relInferKind (item_doc item_path : String) : String :=
  let d := item_doc.data
  let p := item_path.data
  if containsSub "struct".data d && containsSub p d then "struct"
  else if containsSub "enum".data d && containsSub p d then "enum"
  else if containsSub "trait".data d && containsSub p d then "trait"
  else if containsSub "fn".data d && containsSub p d then "function"
  else "item"

/-- `method_return_types` accumulated over all lines, deduplicated
preserving first-seen order (lines 469-474). -/
def returnTypesOf (doc_lines : List Chars) : List Chars :=
  doc_lines.foldl (fun acc l =>
    match retOfLine l with
    | some rt => pushUnique acc rt
    | none => acc) []

/-- `parameter_types` accumulated over all lines (lines 483-493). -/
def parameterTypesOf (doc_lines : List Chars) : List Chars :=
  doc_lines.foldl (fun acc l => (paramsOfLine l).foldl pushUnique acc) []

/-- `associated_types` accumulated over all lines (no deduplication in
the code, lines 499-514). -/
def associatedTypesOf (doc_lines : List Chars) : List Chars :=
  doc_lines.foldl (fun acc l =>
    match assocOfLine l with
    | some t => acc ++ [t]
    | none => acc) []

/-- `impl_traits` accumulated over all lines (lines 517-533). -/
def implTraitsOf (doc_lines : List Chars) : List Chars :=
  doc_lines.foldl (fun acc l =>
    match implOfLine l with
    | some t => pushUnique acc t
    | none => acc) []

/-- The `clean_type` computation for Result/Option guidance
(lines 551-555). -/
def cleanType (rt : Chars) : Chars :=
  trimL (dropEndAllS ">".data (dropStartAllS "Option<".data
    (dropStartAllS "Result<".data rt)))

/-- The Return Types report section (lines 545-572). -/
def returnSection (mrt : List Chars) : String :=
  if mrt.isEmpty then ""
  else
    "## Return Types\n\nThis item\x27s methods return the following types:\n\n" ++
    mrt.foldl (fun s rt =>
      s ++ "- `" ++ String.mk rt ++ "` \n" ++
      (if startsW rt "Result<".data then
        "  - This is a Result type that must be handled with `?`, `.unwrap()`, or pattern matching\n" ++
        "  - When successful, it returns `" ++ String.mk (cleanType rt) ++ "`\n"
      else "") ++
      (if startsW rt "Option<".data then
        "  - This is an Option type that may contain None\n" ++
        "  - When Some, it contains `" ++ String.mk (cleanType rt) ++ "`\n"
      else "")) "" ++
    "\n"

/-- The Parameter Types report section (lines 574-594). -/
def paramSection (pts : List Chars) : String :=
  if pts.isEmpty then ""
  else
    "## Parameter Types\n\nThis item\x27s methods accept the following types as parameters:\n\n" ++
    pts.foldl (fun s pt =>
      if pt == "&self".data || pt == "&mut self".data || pt == "self".data then s
      else
        s ++ "- `" ++ String.mk pt ++ "` \n" ++
        (if startsW pt "&".data then
          "  - This is a borrowed reference - no ownership transfer\n"
        else if containsSub "impl ".data pt then
          "  - This accepts any type that implements the specified trait\n"
        else "")) "" ++
    "\n"

/-- The Associated Types report section (lines 596-604). -/
def assocSection (ats : List Chars) : String :=
  if ats.isEmpty then ""
  else
    "## Associated Types\n\nThis trait has the following associated types that implementors must define:\n\n" ++
    ats.foldl (fun s a => s ++ "- `" ++ String.mk a ++ "` \n") "" ++
    "\n"

/-- The Implemented Traits report section (lines 606-614). -/
def implSection (its : List Chars) : String :=
  if its.isEmpty then ""
  else
    "## Implemented Traits\n\nThis type implements the following traits:\n\n" ++
    its.foldl (fun s t => s ++ "- `" ++ String.mk t ++ "` \n") "" ++
    "\n"

/-- The kind-specific Common Usage Patterns block (lines 619-708). -/
def usagePatterns (item_type item_name : String) (mrt ats : List Chars) : String :=
  if item_type = "struct" then
    "### Creating a " ++ item_name ++ "\n\n" ++
    "```rust\n" ++
    "// Using new() if available\nlet instance = " ++ item_name ++ "::new();\n\n" ++
    "// Using a builder pattern if available\n// let instance = " ++ item_name ++
      "::builder().build();\n" ++
    "```\n\n" ++
    "### Using " ++ item_name ++ " methods\n\n" ++
    "```rust\n" ++
    "// Call methods on the instance\n" ++
    "// instance.some_method();\n" ++
    (if mrt.any (fun t => startsW t "Result<".data) then
      "\n// For methods returning Result\n" ++
      "let result = instance.some_method()?; // Use ? to propagate errors\n" ++
      "// Or handle errors explicitly\n" ++
      "match instance.some_method() \x7b\n" ++
      "    Ok(value) => \x7b /* use value */ \x7d,\n" ++
      "    Err(err) => \x7b /* handle error */ \x7d,\n" ++
      "\x7d\n"
    else "") ++
    "```\n\n"
  else if item_type = "trait" then
    "### Implementing the " ++ item_name ++ " trait\n\n" ++
    "```rust\n" ++
    "struct MyType;\n\n" ++
    "impl " ++ item_name ++ " for MyType \x7b\n" ++
    ats.foldl (fun s a => s ++ "    type " ++ String.mk a ++ " = /* Your type here */;\n") "" ++
    "    // Implement required methods\n" ++
    "\x7d\n" ++
    "```\n\n" ++
    "### Using types that implement " ++ item_name ++ "\n\n" ++
    "```rust\n" ++
    "fn use_trait<T: " ++ item_name ++ ">(value: T) \x7b\n" ++
    "    // Use trait methods on value\n" ++
    "\x7d\n" ++
    "```\n\n"
  else if item_type = "enum" then
    "### Pattern matching on " ++ item_name ++ "\n\n" ++
    "```rust\n" ++
    "let value: " ++ item_name ++ " = /* ... */;\n\n" ++
    "match value \x7b\n" ++
    "    // Match each variant\n" ++
    "    " ++ item_name ++ "::Variant1 => \x7b /* handle variant 1 */ \x7d,\n" ++
    "    " ++ item_name ++ "::Variant2(data) => \x7b /* handle variant 2 with data */ \x7d,\n" ++
    "    // ...\n" ++
    "\x7d\n" ++
    "```\n\n"
  else if item_type = "function" then
    "### Calling the " ++ item_name ++ " function\n\n" ++
    "```rust\n" ++
    "let result = " ++ item_name ++ "(/* parameters */);\n" ++
    (if mrt.any (fun t => startsW t "Result<".data) then
      "\n// If the function returns Result\n" ++
      "let value = " ++ item_name ++ "(/* parameters */)?; // Use ? to propagate errors\n" ++
      "// Or handle errors explicitly\n" ++
      "match " ++ item_name ++ "(/* parameters */) \x7b\n" ++
      "    Ok(value) => \x7b /* use value */ \x7d,\n" ++
      "    Err(err) => \x7b /* handle error */ \x7d,\n" ++
      "\x7d\n"
    else "") ++
    "```\n\n"
  else
    "Specific usage patterns depend on the exact nature of this item.\n" ++
    "Please refer to the main documentation for details.\n\n"

/-- The Working-with-Result guidance block (lines 714-733). -/
def resultTips : String :=
  "## Working with Result types\n\n" ++
  "This item works with Result types. Here are common patterns:\n\n" ++
  "```rust\n" ++
  "// Propagate errors with ?\n" ++
  "fn example() -> Result<(), Error> \x7b\n" ++
  "    let value = some_function()?; // ? unwraps Ok or returns Err early\n" ++
  "    Ok(())\n" ++
  "\x7d\n\n" ++
  "// Handle errors with match\n" ++
  "match some_function() \x7b\n" ++
  "    Ok(value) => \x7b /* use value */ \x7d,\n" ++
  "    Err(error) => \x7b /* handle error */ \x7d,\n" ++
  "\x7d\n\n" ++
  "// Using combinators\n" ++
  "some_function()\n" ++
  "    .map(|value| /* transform value */)\n" ++
  "    .map_err(|error| /* transform error */)\n" ++
  "```\n\n"

/-- The Working-with-Option guidance block (lines 738-753). -/
def optionTips : String :=
  "## Working with Option types\n\n" ++
  "This item works with Option types. Here are common patterns:\n\n" ++
  "```rust\n" ++
  "// Check if value exists\n" ++
  "if let Some(value) = optional_value \x7b\n" ++
  "    // Use value\n" ++
  "\x7d\n\n" ++
  "// Provide a default with unwrap_or\n" ++
  "let value = optional_value.unwrap_or(default_value);\n\n" ++
  "// Using combinators\n" ++
  "optional_value\n" ++
  "    .map(|value| /* transform value */)\n" ++
  "    .filter(|value| /* predicate */)\n" ++
  "```\n\n"

/-- The pure report assembly of `analyze_type_relationships`
(lines 439-753). -/
def analyzeCore (crate_name item_path item_doc : String) : String :=
  let doc_lines := rlines item_doc.data
  let mrt := returnTypesOf doc_lines
  let pts := parameterTypesOf doc_lines
  let ats := associatedTypesOf doc_lines
  let its := implTraitsOf doc_lines
  let item_type := relInferKind item_doc item_path
  let parts := splitCC item_path.data
  let item_name := String.mk (parts.getLastD [])
  "# Type Relationships for " ++ item_path ++ "\n\n" ++
  "## Overview\n\n" ++
  "`" ++ item_name ++ "` is a " ++ item_type ++ " in the `" ++ crate_name ++ "` crate.\n\n" ++
  returnSection mrt ++
  paramSection pts ++
  assocSection ats ++
  implSection its ++
  "## Common Usage Patterns\n\n" ++
  usagePatterns item_type item_name mrt ats ++
  (if mrt.any (fun t => startsW t "Result<".data) then resultTips else "") ++
  (if mrt.any (fun t => startsW t "Option<".data) then optionTips else "")

/-- Cache key of `analyze_type_relationships` (lines 425-429). -/
def relationshipsKey (crate_name item_path : String) (version : Option String) : String :=
  match version with
  | some ver => "relationships:" ++ crate_name ++ ":" ++ ver ++ ":" ++ item_path
  | none => "relationships:" ++ crate_name ++ ":" ++ item_path

/-- `CargoDocRouter::analyze_type_relationships`, lines 409-758: probe
the relationships namespace, resolve the document via `lookup_item`,
assemble the report, and cache it unconditionally. -/
def analyze_type_relationships (ph : String → String) (fetch : Fetch) (cache : Cache)
    (crate_name item_path : String) (version : Option String) : CallOut :=
  let cache_key := relationshipsKey crate_name item_path version
  match cacheGet cache cache_key with
  | some relationships => ⟨relationships, cache, []⟩
  | none =>
    let r := lookup_item ph fetch cache crate_name item_path version
    let relationships := analyzeCore crate_name item_path r.payload
    ⟨relationships, cacheSet r.cache cache_key relationships, r.fetched⟩

/-! ## Claim-support definitions: derived views, failure predicates,
concrete transports and documents used by the theorems below. -/

/-- The candidate URL `lookup_item` constructs for kind `t`, expressed
over the raw (pre-normalisation) item path. -/
def candUrl (crate_name item_path : String) (version : Option String)
    (t : String) : String :=
  let np := stripCratePre crate_name item_path
  let parts := splitCC np.data
  itemUrl crate_name version (modulePathOf parts) (String.mk (parts.getLastD [])) t

/-- The bare item name: last `"::"`-separated segment of the item path
(`parts.last().unwrap_or(&"")`). -/
def bareNameOf (item_path : String) : String :=
  String.mk ((splitCC item_path.data).getLastD [])

/-- Render an inferred kind with the Relationship Analyzer\x27s
vocabulary, for comparing the two components\x27 inferences. -/
def kindName : InferredKind → String
  | .kStruct => "struct"
  | .kTrait => "trait"
  | .kEnum => "enum"
  | .kFn => "function"
  | .kOther => "item"

/-- A fetch that did not produce a 2xx response at `url`: a transport
error, or a response with `is_success() == false`.  These are the cases
in which the kind-trial loop moves on to the next candidate. -/
def fetchFails (fetch : Fetch) (url : String) : Prop :=
  (∃ e, fetch url = .transportError e) ∨
  (∃ resp, fetch url = FetchOutcome.ok resp ∧ resp.success = false)

/-- A fetch at `url` that failed in any of the three ways of the error
taxonomy: transport error, non-2xx status, or 2xx with a failing body
read. -/
def fetchFailsHard (fetch : Fetch) (url : String) : Prop :=
  (∃ e, fetch url = .transportError e) ∨
  (∃ resp, fetch url = FetchOutcome.ok resp ∧ resp.success = false) ∨
  (∃ st e, fetch url = FetchOutcome.ok ⟨true, st, .error e⟩)

/-- A transport answering 404 to every request. -/
def f404 : Fetch := fun _ => .ok ⟨false, "404 Not Found", .ok ""⟩

/-- A transport failing every request at the connection level. -/
def fTransportDown : Fetch := fun _ => .transportError "connection error"

/-- A transport answering 2xx but whose body read fails. -/
def fBodyFail : Fetch := fun _ => .ok ⟨true, "200 OK", .error "decode error"⟩

/-- A transport answering 2xx with body `"<html>"` to every request. -/
def fAllOk : Fetch := fun _ => .ok ⟨true, "200 OK", .ok "<html>"⟩

/-- A transport on which only the trait candidate URL for
`tokio/1.28.0 io::AsyncRead` resolves. -/
def fetchC1 : Fetch := fun url =>
  if url = "https://docs.rs/tokio/1.28.0/tokio/io/trait.AsyncRead.html" then
    .ok ⟨true, "200 OK", .ok "trait docs"⟩
  else .ok ⟨false, "404 Not Found", .ok ""⟩

/-- A transport on which only the struct candidate URL for the bare item
`de` of `serde` resolves; it separates a singly-stripped path from a
doubly-stripped one. -/
def fC6 : Fetch := fun url =>
  if url = "https://docs.rs/serde/latest/serde/struct.de.html" then
    .ok ⟨true, "200 OK", .ok "docs"⟩
  else .ok ⟨false, "404 Not Found", .ok ""⟩

/-- A document with an Examples heading followed by a fenced block. -/
def docExSection : String :=
  "Intro\n\n## Examples\n\nSome prose\n\n```rust\nlet x = 1;\n```\n"

/-- A document with no Examples heading but two fenced blocks. -/
def docExScattered : String :=
  "Intro\n\n```rust\nlet a = 1;\n```\nMore\n```rust\nlet b = 2;\n```\n"

/-- A document with neither an Examples heading nor a fenced block,
mentioning `struct` and the item name `Lumin`. -/
def docExNone : String := "The Lumin struct provides things."

/-- The synthetic signature line of the spec\x27s relationship-extraction
test. -/
def docC3 : String := "pub fn foo(&self, x: i32) -> Result<String, Error>"

/-- Three signature lines with a duplicated return type, for the
deduplication-and-order part of relationship extraction. -/
def docC3dup : String := "fn f() -> A\nfn g() -> B\nfn h() -> A"

/-! ## Helper lemmas -/

theorem strData_inj {a b : String} (h : a.data = b.data) : a = b :=
  congrArg String.mk h

theorem strMk_data (s : String) : String.mk s.data = s := by
  cases s
  rfl

theorem splitCCAux_ne_nil (acc s : Chars) : splitCCAux acc s ≠ [] := by
  induction acc, s using splitCCAux.induct with
  | case1 acc => simp [splitCCAux]
  | case2 acc rest ih => simp [splitCCAux]
  | case3 acc c rest hpat ih =>
    rw [show splitCCAux acc (c :: rest) = splitCCAux (c :: acc) rest by
      rw [splitCCAux.eq_def]
      split
      · rename_i heq
        simp at heq
      · rename_i xs heq
        injection heq with h1 h2
        exact (hpat xs h1 h2).elim
      · rename_i x xs hpat2 heq
        injection heq with h1 h2
        subst h1
        subst h2
        rfl]
    exact ih

theorem splitCC_ne_nil (s : Chars) : splitCC s ≠ [] :=
  splitCCAux_ne_nil [] s

theorem cacheGet_cacheSet (c : Cache) (k v : String) :
    cacheGet (cacheSet c k v) k = some v := by
  simp [cacheGet, cacheSet, List.find?]

theorem containsSub_iff_infl {pat s : Chars} :
    containsSub pat s = true ↔ pat <:+: s := by
  induction s with
  | nil =>
    simp [containsSub, List.isEmpty_iff]
  | cons c rest ih =>
    rw [containsSub, Bool.or_eq_true, List.isPrefixOf_iff_prefix, ih,
      List.infix_cons_iff]

theorem infl_dropWhile {p : Char → Bool} {pat s : Chars} (hne : pat ≠ [])
    (hh : ∀ c ∈ pat, p c = false) (h : pat <:+: s) :
    pat <:+: s.dropWhile p := by
  obtain ⟨a, b, rfl⟩ := h
  rw [List.append_assoc, List.dropWhile_append]
  split
  · cases pat with
    | nil => exact absurd rfl hne
    | cons x xs =>
      rw [List.cons_append, List.dropWhile_cons, hh x (by simp)]
      simp only [Bool.false_eq_true, if_false]
      exact ⟨[], b, by simp⟩
  · exact ⟨List.dropWhile p a, b, by simp⟩

theorem infl_trimL {pat s : Chars} (hne : pat ≠ [])
    (hws : ∀ ch ∈ pat, ch.isWhitespace = false) (h : pat <:+: s) :
    pat <:+: trimL s := by
  have h1 : pat <:+: s.dropWhile Char.isWhitespace :=
    infl_dropWhile hne hws h
  have h2 : pat.reverse <:+: (s.dropWhile Char.isWhitespace).reverse :=
    List.reverse_infix.2 h1
  have h3 : pat.reverse <:+:
      ((s.dropWhile Char.isWhitespace).reverse.dropWhile Char.isWhitespace) :=
    infl_dropWhile (by simpa using hne)
      (by intro c hc; exact hws c (by simpa using hc)) h2
  have h4 := List.reverse_infix.2 h3
  simpa [trimL] using h4

theorem containsSub_trimL {pat s : Chars} (hne : pat ≠ [])
    (hws : ∀ ch ∈ pat, ch.isWhitespace = false)
    (h : containsSub pat s = true) : containsSub pat (trimL s) = true := by
  rw [containsSub_iff_infl] at h ⊢
  exact infl_trimL hne hws h

theorem stripCratePre_concat (c x : String) :
    stripCratePre c (c ++ "::" ++ x) = x := by
  rw [stripCratePre]
  split
  · rw [show (c ++ "::" ++ x).data = (c ++ "::").data ++ x.data from
      String.data_append _ _, List.drop_left]
  · rename_i hc
    exfalso
    rw [startsW, List.isPrefixOf_iff_prefix, String.data_append] at hc
    exact hc (List.prefix_append _ _)

theorem stripCratePre_id (c x : String)
    (h : startsW x.data (c ++ "::").data = false) :
    stripCratePre c x = x := by
  rw [stripCratePre]
  split
  · rename_i hc
    rw [h] at hc
    cases hc
  · rfl

theorem tryTypes_first_success (ph : String → String) (fetch : Fetch)
    (cache : Cache) (cache_key crate_name : String) (version : Option String)
    (module_path item_name : String) (k : String) (ks₂ : List String)
    (st b : String)
    (hwin : fetch (itemUrl crate_name version module_path item_name k) =
      .ok ⟨true, st, .ok b⟩) :
    ∀ (ks₁ : List String) (le : Option String),
      (∀ t ∈ ks₁, fetchFails fetch (itemUrl crate_name version module_path item_name t)) →
      tryTypes ph fetch cache cache_key crate_name version module_path item_name
          (ks₁ ++ k :: ks₂) le =
        ⟨ph b, cacheSet cache cache_key (ph b),
          ks₁.map (itemUrl crate_name version module_path item_name) ++
            [itemUrl crate_name version module_path item_name k]⟩ := by
  intro ks₁
  induction ks₁ with
  | nil =>
    intro le _
    rw [List.nil_append, tryTypes, hwin]
    simp
  | cons t ts ih =>
    intro le hfail
    rcases hfail t (by simp) with ⟨e, he⟩ | ⟨resp, hre, hrs⟩
    · rw [List.cons_append, tryTypes, he]
      simp [ih (some e) (fun u hu => hfail u (by simp [hu]))]
    · rw [List.cons_append, tryTypes, hre]
      simp [hrs, ih (some ("Status code: " ++ resp.statusText))
        (fun u hu => hfail u (by simp [hu]))]

theorem tryTypes_all_fail (ph : String → String) (fetch : Fetch)
    (cache : Cache) (cache_key crate_name : String) (version : Option String)
    (module_path item_name : String) :
    ∀ (ks : List String) (le : Option String),
      (∀ t ∈ ks, fetchFailsHard fetch (itemUrl crate_name version module_path item_name t)) →
      (tryTypes ph fetch cache cache_key crate_name version module_path item_name
        ks le).cache = cache := by
  intro ks
  induction ks with
  | nil =>
    intro le _
    rw [tryTypes]
  | cons t ts ih =>
    intro le hfail
    rcases hfail t (by simp) with ⟨e, he⟩ | ⟨resp, hre, hrs⟩ | ⟨st, e, he⟩
    · rw [tryTypes, he]
      simp [ih (some e) (fun u hu => hfail u (by simp [hu]))]
    · rw [tryTypes, hre]
      simp [hrs, ih (some ("Status code: " ++ resp.statusText))
        (fun u hu => hfail u (by simp [hu]))]
    · rw [tryTypes, he]
      simp

/-! ## Claim theorems -/

/-- Claim C4, corrected: the effective result count of `search_crates` is
the supplied limit capped above at 100 (there is no lower clamp to 1),
defaulting to 10 when no limit is supplied, and the registry URL is built
with `per_page` equal to exactly that value. -/
theorem claim_C4 (ph : String → String) (fetch : Fetch) (query : String)
    (limit : Option Nat) :
    (search_crates ph fetch query limit).2 = [searchUrl query (effLimit limit)] ∧
    effLimit none = 10 ∧
    (∀ n, effLimit (some n) = min n 100) ∧
    effLimit limit ≤ 100 := by
  refine ⟨?_, rfl, fun n => rfl, Nat.min_le_right _ _⟩
  rw [search_crates]
  cases fetch (searchUrl query (effLimit limit)) with
  | transportError e => rfl
  | ok resp =>
    rcases resp with ⟨su, stx, body⟩
    cases su
    · rfl
    · cases body with
      | error e => rfl
      | ok b =>
        by_cases hb : startsW (trimL b.data) "\x7b".data = true
        · simp [hb]
        · simp [hb]

/-- Claim C4 counterexample: a supplied limit of 0 is not raised to 1 as
the clamp-to-`[1,100]` reading requires; the URL is built with
`per_page=0`. -/
theorem claim_C4_cex :
    effLimit (some 0) = 0 ∧
    searchUrl "q" (effLimit (some 0)) =
      "https://crates.io/api/v1/crates?q=q&per_page=0" ∧
    ¬ 1 ≤ effLimit (some 0) := by
  refine ⟨rfl, ?_, by decide⟩
  rfl

/-- Claim C5, corrected: the constructed item-documentation URL always
contains a version-slot path segment — the supplied version when one was
given and the literal `latest` otherwise — and a module path segment
exactly when the module path is non-empty. -/
theorem claim_C5 (c i m t : String) (v : Option String) :
    itemUrl c v m i t =
      "https://docs.rs/" ++ c ++ "/" ++ v.getD "latest" ++ "/" ++ c ++ "/" ++
        (if m = "" then "" else m ++ "/") ++ t ++ "." ++ i ++ ".html" := by
  apply strData_inj
  cases v with
  | none =>
    by_cases hm : m = "" <;>
      simp only [itemUrl, hm, if_pos, if_neg, Option.getD,
        String.data_append, List.append_assoc, ite_true, ite_false] <;> rfl
  | some ver =>
    by_cases hm : m = "" <;>
      simp only [itemUrl, hm, if_pos, if_neg, Option.getD,
        String.data_append, List.append_assoc, ite_true, ite_false] <;> rfl

/-- Claim C5 counterexample: with no version supplied the URL still
carries a segment in the version slot, the literal `latest`; the
spec-shaped URL without any segment there is not what is built. -/
theorem claim_C5_cex :
    itemUrl "serde" none "" "Serialize" "trait" =
      "https://docs.rs/serde/latest/serde/trait.Serialize.html" ∧
    itemUrl "serde" none "" "Serialize" "trait" ≠
      "https://docs.rs/serde/serde/trait.Serialize.html" ∧
    containsSub "/latest/".data
      (itemUrl "serde" none "" "Serialize" "trait").data = true := by
  refine ⟨rfl, by decide, by decide⟩

/-- Claim C6 counterexample: stripping happens exactly once, so when the
suffix `X` itself begins with `"<package>::"` the two lookups are not
identical: with `X = "serde::de"`, looking up `"serde::serde::de"`
normalises to `"serde::de"` (module path `serde`, candidate URLs under
`/serde/serde/`) while looking up `"serde::de"` normalises to `"de"`
(no module path); under a transport resolving only
`/serde/struct.de.html` the two calls return different payloads. -/
theorem claim_C6_cex :
    (lookup_item id fC6 [] "serde" ("serde" ++ "::" ++ "serde::de") none).payload ≠
      (lookup_item id fC6 [] "serde" "serde::de" none).payload := by
  decide

/-- Claim C6, corrected: stripping the `"<package>::"` prefix is a pure
normalisation for every suffix that does not itself begin with the
prefix (stripping is applied once, not to a fixed point): for such `X`,
looking up `"<package>::X"` and looking up `"X"` are the same call —
same cache key, same candidate URLs, same payload, same final cache. -/
theorem claim_C6 (ph : String → String) (fetch : Fetch) (cache : Cache)
    (p x : String) (v : Option String)
    (h : startsW x.data (p ++ "::").data = false) :
    lookup_item ph fetch cache p (p ++ "::" ++ x) v =
      lookup_item ph fetch cache p x v := by
  rw [lookup_item, lookup_item, stripCratePre_concat, stripCratePre_id p x h]

/-- Claim C6 witness at `serde` / `de::Visitor`. -/
theorem claim_C6_w :
    lookup_item id f404 [] "serde" ("serde" ++ "::" ++ "de::Visitor") none =
      lookup_item id f404 [] "serde" "de::Visitor" none :=
  claim_C6 id f404 [] "serde" "de::Visitor" none (by decide)

/-- Claim C9 counterexample: the two kind inferences differ.  On
`"enum trait Foo"` with item `Foo` the Example Extractor infers `trait`
(priority order struct, trait, enum, fn) while the Relationship Analyzer
infers `enum` (priority order struct, enum, trait, fn); on
`"Struct Foo"` the case-insensitive Example Extractor infers `struct`
while the case-sensitive Relationship Analyzer falls through to
`item`. -/
theorem claim_C9_cex :
    kindName (exInferKind "enum trait Foo" (bareNameOf "Foo")) = "trait" ∧
    relInferKind "enum trait Foo" "Foo" = "enum" ∧
    kindName (exInferKind "Struct Foo" (bareNameOf "Foo")) = "struct" ∧
    relInferKind "Struct Foo" "Foo" = "item" := by
  refine ⟨by decide, by decide, by decide, by decide⟩

/-- Claim C9, corrected: the two components use different best-effort
checks (case-insensitive keyword plus bare name in order struct, trait,
enum, fn for the Example Extractor; case-sensitive keyword plus full item
path in order struct, enum, trait, fn for the Relationship Analyzer), so
they agree only conditionally; in particular both check `struct` first,
so whenever each component\x27s own struct condition holds, both infer
`struct`. -/
theorem claim_C9 (doc item_path : String)
    (h1 : containsSub "struct".data (lowerL doc.data) = true)
    (h2 : containsSub (lowerL (bareNameOf item_path).data) (lowerL doc.data) = true)
    (h3 : containsSub "struct".data doc.data = true)
    (h4 : containsSub item_path.data doc.data = true) :
    kindName (exInferKind doc (bareNameOf item_path)) = "struct" ∧
    relInferKind doc item_path = "struct" := by
  constructor
  · rw [exInferKind]
    simp [h1, h2, kindName]
  · rw [relInferKind]
    simp [h3, h4]

/-- Claim C9 witness at document `"struct Foo"`, item `Foo`. -/
theorem claim_C9_w :
    kindName (exInferKind "struct Foo" (bareNameOf "Foo")) = "struct" ∧
    relInferKind "struct Foo" "Foo" = "struct" :=
  claim_C9 "struct Foo" "Foo" (by decide) (by decide) (by decide) (by decide)

/-- Claim C10: `lookup_crate` with version `s` and `lookup_item` with
item path `s` and no version build the identical cache key `c ++ ":" ++ s`;
after a successful `lookup_crate (c, some s)` a subsequent
`lookup_item (c, s, none)` — under any transport — answers the
crate-level payload from the cache and fetches nothing. -/
theorem claim_C10 (ph : String → String) (fetch : Fetch) (cache : Cache)
    (c s st b : String)
    (hno : startsW s.data (c ++ "::").data = false)
    (hmiss : cacheGet cache (c ++ ":" ++ s) = none)
    (hok : fetch (crateUrl c (some s)) = .ok ⟨true, st, .ok b⟩) :
    itemKey c s none = c ++ ":" ++ s ∧
    lookup_crate ph fetch cache c (some s) =
      ⟨ph b, cacheSet cache (c ++ ":" ++ s) (ph b), [crateUrl c (some s)]⟩ ∧
    (∀ fetch2 : Fetch,
      lookup_item ph fetch2 (cacheSet cache (c ++ ":" ++ s) (ph b)) c s none =
        ⟨ph b, cacheSet cache (c ++ ":" ++ s) (ph b), []⟩) := by
  refine ⟨rfl, ?_, ?_⟩
  · rw [lookup_crate]
    simp [crateKey, hmiss, hok]
  · intro fetch2
    rw [lookup_item, stripCratePre_id c s hno, lookup_item_norm]
    simp only [itemKey, cacheGet_cacheSet]

/-- Claim C10 witness at `serde` / `1.0.0`. -/
theorem claim_C10_w :
    lookup_crate id fAllOk [] "serde" (some "1.0.0") =
      ⟨"<html>", cacheSet [] ("serde" ++ ":" ++ "1.0.0") "<html>",
        [crateUrl "serde" (some "1.0.0")]⟩ ∧
    lookup_item id f404 (cacheSet [] ("serde" ++ ":" ++ "1.0.0") "<html>")
        "serde" "1.0.0" none =
      ⟨"<html>", cacheSet [] ("serde" ++ ":" ++ "1.0.0") "<html>", []⟩ :=
  ⟨(claim_C10 id fAllOk [] "serde" "1.0.0" "200 OK" "<html>" (by decide) rfl rfl).2.1,
   (claim_C10 id fAllOk [] "serde" "1.0.0" "200 OK" "<html>" (by decide) rfl rfl).2.2 f404⟩

/-- Claim C1: the kind-trial loop of `lookup_item` tries the candidate
kinds strictly in the fixed order struct, enum, trait, fn, macro; on a
cache miss, the first candidate whose URL answers 2xx (with its body
delivered) wins: the normalised body is returned, cached under the item
key, and no later candidate URL is fetched (the fetch trace stops at the
winner). -/
theorem claim_C1 (ph : String → String) (fetch : Fetch) (cache : Cache)
    (crate_name item_path : String) (version : Option String)
    (st b k : String) (ks₁ ks₂ : List String)
    (hks : itemTypes = ks₁ ++ k :: ks₂)
    (hmiss : cacheGet cache
      (itemKey crate_name (stripCratePre crate_name item_path) version) = none)
    (hfail : ∀ t ∈ ks₁, fetchFails fetch (candUrl crate_name item_path version t))
    (hwin : fetch (candUrl crate_name item_path version k) =
      .ok ⟨true, st, .ok b⟩) :
    lookup_item ph fetch cache crate_name item_path version =
      ⟨ph b,
        cacheSet cache
          (itemKey crate_name (stripCratePre crate_name item_path) version) (ph b),
        ks₁.map (candUrl crate_name item_path version) ++
          [candUrl crate_name item_path version k]⟩ := by
  have hne := splitCC_ne_nil (stripCratePre crate_name item_path).data
  simp only [lookup_item, lookup_item_norm, hmiss]
  simp only [candUrl] at hfail hwin
  rw [show (splitCC (stripCratePre crate_name item_path).data).isEmpty = false by
      cases h : (splitCC (stripCratePre crate_name item_path).data).isEmpty
      · rfl
      · exact absurd (List.isEmpty_iff.1 h) hne]
  simp only [Bool.false_eq_true, if_false, hks]
  have hm := tryTypes_first_success ph fetch cache
    (itemKey crate_name (stripCratePre crate_name item_path) version)
    crate_name version
    (modulePathOf (splitCC (stripCratePre crate_name item_path).data))
    (String.mk ((splitCC (stripCratePre crate_name item_path).data).getLastD []))
    k ks₂ st b hwin ks₁ none hfail
  exact hm

/-- Claim C1 witness: on a transport where only the trait candidate for
`tokio/1.28.0 io::AsyncRead` resolves, struct and enum are tried first
and the trait document wins. -/
theorem claim_C1_w :
    lookup_item id fetchC1 [] "tokio" "io::AsyncRead" (some "1.28.0") =
      ⟨"trait docs",
        cacheSet []
          (itemKey "tokio" (stripCratePre "tokio" "io::AsyncRead") (some "1.28.0"))
          "trait docs",
        ["struct", "enum"].map (candUrl "tokio" "io::AsyncRead" (some "1.28.0")) ++
          [candUrl "tokio" "io::AsyncRead" (some "1.28.0") "trait"]⟩ :=
  claim_C1 id fetchC1 [] "tokio" "io::AsyncRead" (some "1.28.0")
    "200 OK" "trait docs" "trait" ["struct", "enum"] ["fn", "macro"] rfl rfl
    (by
      intro t ht
      fin_cases ht <;>
        exact Or.inr ⟨⟨false, "404 Not Found", .ok ""⟩, by decide, rfl⟩)
    (by decide)

/-- Claim C7: operations never raise: the split of the item path is never
empty, so the guarded `unwrap` cannot panic and the `Invalid item path`
branch is unreachable; an empty item path, a transport failure, a
body-read failure and a non-2xx search each come back as a descriptive
text payload. -/
theorem claim_C7 :
    (∀ s : String, (splitCC s.data).isEmpty = false) ∧
    (lookup_item id f404 [] "serde" "" none).payload =
      "Failed to fetch item documentation. No matching item found. Last error: Status code: 404 Not Found" ∧
    (lookup_crate id fTransportDown [] "serde" none).payload =
      "Failed to fetch documentation: connection error" ∧
    (lookup_crate id fBodyFail [] "serde" none).payload =
      "Failed to read response body: decode error" ∧
    (search_crates id f404 "q" none).1 =
      "Failed to search crates.io. Status: 404 Not Found" := by
  refine ⟨fun s => ?_, by decide, by decide, by decide, by decide⟩
  cases h : (splitCC s.data).isEmpty
  · rfl
  · exact absurd (List.isEmpty_iff.1 h) (splitCC_ne_nil s.data)

/-- Claim C8, corrected: the two document-cache operations write nothing
on failure — when the fetch fails (transport error, non-2xx, or body-read
failure, across all candidates) `lookup_crate` and `lookup_item` leave
the cache exactly as it was.  (The derived operations cache their derived
artifact unconditionally; see the counterexample.) -/
theorem claim_C8 :
    (∀ (ph : String → String) (fetch : Fetch) (cache : Cache)
        (c : String) (v : Option String),
      fetchFailsHard fetch (crateUrl c v) →
      (lookup_crate ph fetch cache c v).cache = cache) ∧
    (∀ (ph : String → String) (fetch : Fetch) (cache : Cache)
        (c p : String) (v : Option String),
      (∀ t ∈ itemTypes, fetchFailsHard fetch (candUrl c p v t)) →
      (lookup_item ph fetch cache c p v).cache = cache) := by
  constructor
  · intro ph fetch cache c v h
    rw [lookup_crate]
    split
    · rfl
    · rcases h with ⟨e, he⟩ | ⟨resp, hre, hrs⟩ | ⟨stx, e, he⟩
      · simp [he]
      · simp [hre, hrs]
      · simp [he]
  · intro ph fetch cache c p v h
    simp only [lookup_item, lookup_item_norm]
    simp only [candUrl] at h
    split
    · rfl
    · split
      · rfl
      · exact tryTypes_all_fail ph fetch cache _ c v _ _ itemTypes none h

/-- Claim C8 counterexample: with a transport answering 404 to every
request — so every candidate fetch fails — `lookup_item_examples` still
writes its derived artifact into the cache: the cache is no longer empty
and the examples key is populated.  The same failed call left the
document cache untouched, so the claim fails only for the derived
operations. -/
theorem claim_C8_cex :
    f404 (candUrl "serde" "Thing" none "struct") =
      .ok ⟨false, "404 Not Found", .ok ""⟩ ∧
    (lookup_item_examples id f404 [] "serde" "Thing" none).cache ≠ [] ∧
    (cacheGet (lookup_item_examples id f404 [] "serde" "Thing" none).cache
      (examplesKey "serde" "Thing" none)).isSome = true := by
  refine ⟨rfl, by decide, by decide⟩

/-- Claim C8 witness: a transport-level failure leaves `lookup_crate`\x27s
cache empty, and an all-404 transport leaves `lookup_item`\x27s cache
empty. -/
theorem claim_C8_w :
    (lookup_crate id fTransportDown [] "serde" none).cache = [] ∧
    (lookup_item id f404 [] "serde" "Thing" none).cache = [] :=
  ⟨claim_C8.1 id fTransportDown [] "serde" none
      (Or.inl ⟨"connection error", rfl⟩),
   claim_C8.2 id f404 [] "serde" "Thing" none
      (fun t _ => Or.inr (Or.inl ⟨⟨false, "404 Not Found", .ok ""⟩, rfl, rfl⟩))⟩

/-- Claim C2: the three-stage example fallback.  Generally: whenever the
stage-1 Examples-section scan yields fenced content, its output is
returned; whenever stage 1 yields nothing and the stage-2 whole-document
scan yields fenced content, the stage-2 output (blocks labelled
`Example 1`, `Example 2`, …) is returned; whenever neither stage yields a
fenced block, the synthetic generation runs.  Concretely, on the three
spec scenarios: the document with an `## Examples` heading yields its
fenced block verbatim; the heading-less document yields its blocks
labelled sequentially; the document with neither yields the synthetic
kind-specific snippet with the generation disclaimer. -/
theorem claim_C2 :
    (∀ (c p doc : String),
      containsSub "```".data (stage1 (rlines doc.data)) = true →
      extractExamples c p doc = String.mk (stage1 (rlines doc.data))) ∧
    (∀ (c p doc : String),
      stage1 (rlines doc.data) = [] →
      containsSub "```".data (stage2 (rlines doc.data)) = true →
      extractExamples c p doc = String.mk (stage2 (rlines doc.data))) ∧
    (∀ (c p doc : String),
      containsSub "```".data
        (if (stage1 (rlines doc.data)).isEmpty then stage2 (rlines doc.data)
         else stage1 (rlines doc.data)) = false →
      extractExamples c p doc = synthExamples c p doc) ∧
    containsSub "```rust\nlet x = 1;\n```".data
      (extractExamples "lumin" "core::Lumin" docExSection).data = true ∧
    containsSub "## Example 1\n\n```rust\nlet a = 1;\n```".data
      (extractExamples "lumin" "core::Lumin" docExScattered).data = true ∧
    containsSub "## Example 2\n\n```rust\nlet b = 2;\n```".data
      (extractExamples "lumin" "core::Lumin" docExScattered).data = true ∧
    extractExamples "lumin" "core::Lumin" docExNone =
      synthExamples "lumin" "core::Lumin" docExNone ∧
    containsSub "This is a generated example.".data
      (extractExamples "lumin" "core::Lumin" docExNone).data = true := by
  refine ⟨?_, ?_, ?_, by decide, by decide, by decide, by decide, by decide⟩
  · intro c p doc h
    have hne : stage1 (rlines doc.data) ≠ [] := by
      intro h0
      rw [h0] at h
      exact absurd h (by decide)
    have hie : (stage1 (rlines doc.data)).isEmpty = false := by
      cases hi : (stage1 (rlines doc.data)).isEmpty
      · rfl
      · exact absurd (List.isEmpty_iff.1 hi) hne
    have hc : containsSub "```".data (trimL (stage1 (rlines doc.data))) = true :=
      containsSub_trimL (by decide) (by decide) h
    have hb1 : (trimL (stage1 (rlines doc.data)) ==
        "# Usage Examples\n\nThe following examples demonstrate how to use this item:".data) = false := by
      cases hbe : trimL (stage1 (rlines doc.data)) ==
          "# Usage Examples\n\nThe following examples demonstrate how to use this item:".data
      · rfl
      · exfalso
        rw [eq_of_beq hbe] at hc
        exact absurd hc (by decide)
    have hb2 : (trimL (stage1 (rlines doc.data)) == "# Usage Examples".data) = false := by
      cases hbe : trimL (stage1 (rlines doc.data)) == "# Usage Examples".data
      · rfl
      · exfalso
        rw [eq_of_beq hbe] at hc
        exact absurd hc (by decide)
    simp only [extractExamples, hie, Bool.false_eq_true, if_false, hb1, hb2, h,
      Bool.not_true, Bool.or_false, Bool.false_or]
  · intro c p doc h0 h
    have hc : containsSub "```".data (trimL (stage2 (rlines doc.data))) = true :=
      containsSub_trimL (by decide) (by decide) h
    have hb1 : (trimL (stage2 (rlines doc.data)) ==
        "# Usage Examples\n\nThe following examples demonstrate how to use this item:".data) = false := by
      cases hbe : trimL (stage2 (rlines doc.data)) ==
          "# Usage Examples\n\nThe following examples demonstrate how to use this item:".data
      · rfl
      · exfalso
        rw [eq_of_beq hbe] at hc
        exact absurd hc (by decide)
    have hb2 : (trimL (stage2 (rlines doc.data)) == "# Usage Examples".data) = false := by
      cases hbe : trimL (stage2 (rlines doc.data)) == "# Usage Examples".data
      · rfl
      · exfalso
        rw [eq_of_beq hbe] at hc
        exact absurd hc (by decide)
    simp only [extractExamples, h0, List.isEmpty_nil, if_true, hb1, hb2, h,
      Bool.not_true, Bool.or_false, Bool.false_or, Bool.false_eq_true, if_false]
  · intro c p doc h
    simp only [extractExamples, h, Bool.not_false, Bool.or_true, if_true]

/-- Claim C2 witness: on the document with an Examples heading and a
fenced block, stage 1 wins and its output is returned. -/
theorem claim_C2_w :
    extractExamples "lumin" "core::Lumin" docExSection =
      String.mk (stage1 (rlines docExSection.data)) :=
  claim_C2.1 "lumin" "core::Lumin" docExSection (by decide)

/-- Claim C3: on the spec\x27s synthetic line
`pub fn foo(&self, x: i32) -> Result<String, Error>` the extraction
records `Result<String, Error>` as the only return type and `i32` as the
only parameter type (the `&self` receiver is excluded); the assembled
report lists the return type with Result-handling guidance, lists `i32`,
and nowhere lists `&self`; and extraction deduplicates return types
preserving first-seen order. -/
theorem claim_C3 :
    returnTypesOf (rlines docC3.data) = ["Result<String, Error>".data] ∧
    parameterTypesOf (rlines docC3.data) = ["i32".data] ∧
    containsSub "- `Result<String, Error>` \n".data
      (analyzeCore "mycrate" "foo" docC3).data = true ∧
    containsSub "This is a Result type that must be handled".data
      (analyzeCore "mycrate" "foo" docC3).data = true ∧
    containsSub "- `i32` \n".data
      (analyzeCore "mycrate" "foo" docC3).data = true ∧
    containsSub "`&self`".data
      (analyzeCore "mycrate" "foo" docC3).data = false ∧
    returnTypesOf (rlines docC3dup.data) = ["A".data, "B".data] := by
  refine ⟨by decide, by decide, by decide, by decide, by decide, by decide,
    by decide⟩

end Cratedocs
